import Mathlib

/-!
Verification of the catalogue-to-Shopify synchronization engine of the
Hooter backend.  The definitions below are a shallow embedding of
`src/catalogue.py` (Flask routes) and `src/services/catalogue_service.py`
(the `CatalogueService` static methods), together with the helpers they
call (`src/services/shopify_helpers.py`, `src/database.py`).

Modelling conventions:
* MySQL state is a `Db` record of row lists; a SQL `INSERT` appends, an
  `UPDATE ... WHERE` maps over the rows, `SELECT ... fetchone()` is
  `List.find?`.  Statements executed between `cursor.execute` and
  `mysql.connection.commit()` live in one InnoDB transaction: a commit
  applies all buffered writes, a rollback discards them, which is modelled
  by applying the writes only on the commit path.
* Every spot where the Python code can observe a runtime exception from
  the outside world (database driver, network, token decryption) is
  parameterised by an explicit oracle (a `Bool` flag, an `Option String`
  message, or a `CallOutcome` per attempt), so the exception paths of the
  code are ordinary branches here.
* Remote (Shopify) calls and backoff sleeps are recorded in an `Effect`
  trace so that statements like "no remote create call happens" are plain
  facts about the trace.
* Python string formatting (`json.dumps`, f-strings) is replaced by plain
  string concatenation; no claim inspects the inner structure of these
  strings.
-/

namespace Hooter

/-! ### Request payload shapes (parsed JSON bodies) -/

/-- One element of the `variants` array of a create-product request.
Every field is read with `dict.get`, hence `Option`. -/
structure VariantInput where
  sku : Option String
  price : Option String
  compare_at_price : Option String
  weight : Option String
  weight_unit : Option String
deriving Repr, DecidableEq

/-- One element of the `images` array of a create-product request. -/
structure ImageInput where
  image_url : Option String
  alt_text : Option String
  position : Option Int
deriving Repr, DecidableEq

/-! ### Normalized Shopify responses (services/shopify_graphql.py) -/

/-- A variant as returned by `create_product_with_variants`. -/
structure ShopifyVariant where
  id : String
  sku : Option String
  price : Option String
  inventoryItemId : String
deriving Repr, DecidableEq

/-- A product as returned by `create_product_with_variants`. -/
structure ShopifyProduct where
  id : String
  title : String
  variants : List ShopifyVariant
deriving Repr, DecidableEq

/-- A media object as returned by `create_product_media`. -/
structure ShopifyMedia where
  id : String
deriving Repr, DecidableEq

/-! ### Relational store rows -/

/-- A row of the `stores` table (the columns the core reads). -/
structure StoreRow where
  store_id : Int
  user_id : String
  is_active : Bool
deriving Repr, DecidableEq

/-- A row of the `catalogue` table.  The five webhook-mutable columns are
nullable because `update_catalogue_from_webhook` writes `payload.get(...)`
values into them, which may be `None`. -/
structure CatalogueRow where
  catalogue_id : String
  store_id : Int
  user_id : String
  title : Option String
  description : Option String
  vendor : Option String
  product_type : Option String
  tags : Option String
  status : String
  price : Option String
deriving Repr, DecidableEq

/-- A row of the `catalogue_shopify_mapping` table. -/
structure MappingRow where
  catalogue_id : String
  shopify_product_id : String
  store_id : Int
  last_sync_status : String
deriving Repr, DecidableEq

/-- A row of the `catalogue_variants` table. -/
structure VariantRow where
  variant_id : String
  catalogue_id : String
  shopify_variant_id : String
  sku : Option String
  price : String
  inventory_item_id : String
  status : String
deriving Repr, DecidableEq

/-- A row of the `catalogue_images` table. -/
structure ImageRow where
  image_id : String
  catalogue_id : String
  shopify_media_id : String
  image_url : Option String
  alt_text : Option String
  position : Int
  uploaded_by : String
deriving Repr, DecidableEq

/-- A row of the `catalogue_idempotency` table; the triple
`(idempotency_key, user_id, store_id)` carries a uniqueness constraint. -/
structure IdempotencyRow where
  idempotency_key : String
  user_id : String
  store_id : Int
  response_json : String
deriving Repr, DecidableEq

/-- A row of the `catalogue_audit_log` table (the ChangeLogEntry of the
spec).  `store_id` and `user_id` are nullable: webhook-sourced entries
pass `None` for them. -/
structure AuditRow where
  catalogue_id : String
  store_id : Option Int
  user_id : Option String
  action : String
  changes : String
deriving Repr, DecidableEq

/-- A row of the `catalogue_inventory` table, keyed by
`(variant_id, location_id)`. -/
structure InventoryRow where
  variant_id : String
  location_id : String
  available_quantity : Int
  sync_status : String
deriving Repr, DecidableEq

/-- The relational store visible to the catalogue engine. -/
structure Db where
  stores : List StoreRow
  catalogue : List CatalogueRow
  mapping : List MappingRow
  variants : List VariantRow
  images : List ImageRow
  idempotency : List IdempotencyRow
  audit : List AuditRow
  inventory : List InventoryRow
deriving Repr, DecidableEq

/-! ### Exceptions (services/exceptions.py plus builtins) -/

/-- An image rejected by `validate_image_urls`: the dict
`{"image_url": ..., "reason": ...}` appended to the `invalid` list. -/
structure InvalidImage where
  image_url : Option String
  reason : String
deriving Repr, DecidableEq

/-- The exception classes the create flow can raise to its caller. -/
inductive PyError where
  | authorization (msg : String)
  | validation (invalid : List InvalidImage)
  | shopifyAPI (msg : String)
  | generic (msg : String)
deriving Repr, DecidableEq

instance {ε α : Type} [DecidableEq ε] [DecidableEq α] : DecidableEq (Except ε α) := fun a b =>
  match a, b with
  | .error x, .error y =>
      if h : x = y then isTrue (h ▸ rfl) else isFalse (fun hc => h (Except.error.inj hc))
  | .ok x, .ok y =>
      if h : x = y then isTrue (h ▸ rfl) else isFalse (fun hc => h (Except.ok.inj hc))
  | .error _, .ok _ => isFalse (fun hc => Except.noConfusion hc)
  | .ok _, .error _ => isFalse (fun hc => Except.noConfusion hc)

/-! ### Retry executor (CatalogueService._retry_shopify_call) -/

/-- What one invocation of the wrapped callable does.  `retryable` stands
for `requests.Timeout`, `requests.ConnectionError` or
`ShopifyRetryableError` (the classes named in the `except` clause);
`fatal` is any other exception, re-raised untouched by the bare
`except Exception: raise`. -/
inductive CallOutcome (α : Type) where
  | ok (a : α)
  | retryable (msg : String)
  | fatal (e : PyError)
deriving Repr, DecidableEq

/-- The observable outcome of `_retry_shopify_call`: the returned value or
raised exception, the `time.sleep` durations in whole seconds (every
sleep of this program is `2.0 * attempt`, an exact whole number, so `ℕ`
loses nothing of the float), and how many times the callable was
invoked. -/
structure RetryOutcome (α : Type) where
  result : Except PyError α
  sleeps : List ℕ
  calls : ℕ
deriving Repr, DecidableEq

/-- The `for attempt in range(1, attempts + 1)` loop body of
`_retry_shopify_call`.  On a retryable exception it records
`backoff_seconds * attempt` and continues; on any other exception it
re-raises; after the loop it raises
`Exception(f"Shopify call failed after retries: {str(last_error)}")`. -/
def retryLoop (f : ℕ → CallOutcome α) (backoff : ℕ) :
    List ℕ → List ℕ → ℕ → Option String → RetryOutcome α
  | [], sleeps, calls, _lastErr =>
      ⟨.error (.generic ("Shopify call failed after retries: " ++ _lastErr.getD "None")),
        sleeps, calls⟩
  | attempt :: rest, sleeps, calls, _lastErr =>
      match f attempt with
      | .ok a => ⟨.ok a, sleeps, calls + 1⟩
      | .retryable m =>
          retryLoop f backoff rest (sleeps ++ [backoff * attempt]) (calls + 1) (some m)
      | .fatal e => ⟨.error e, sleeps, calls + 1⟩

/-- `CatalogueService._retry_shopify_call(callable_fn)` with its (never
overridden) defaults `attempts = 3`, `backoff_seconds = 2.0`; the attempt
numbers `range(1, 4)` are `[1, 2, 3]`. -/
def retry_shopify_call (f : ℕ → CallOutcome α) : RetryOutcome α :=
  retryLoop f 2 [1, 2, 3] [] 0 none

/-! ### Ownership guard (CatalogueService.verify_store_ownership) -/

/-- `verify_store_ownership(store_id, user_id)`.  `dbError` is the oracle
for the `except Exception` branch (any failure of the cursor or query),
which also returns `False`.  The query matches
`store_id = %s AND user_id = %s AND is_active = TRUE`. -/
def verify_store_ownership (db : Db) (dbError : Bool) (store_id : Int) (user_id : String) :
    Bool :=
  if dbError then false
  else
    (db.stores.find? fun s =>
      s.store_id == store_id && s.user_id == user_id && s.is_active).isSome

/-! ### Idempotency store -/

/-- Python truthiness of the `Idempotency-Key` header value: absent
(`None`) and the empty string are both falsy. -/
def keyTruthy : Option String → Bool
  | none => false
  | some s => !(s == "")

/-- `CatalogueService._get_or_create_idempotency`: `None` for a falsy
key, else the stored `response_json` of the first row matching the exact
triple `(idempotency_key, user_id, store_id)`. -/
def get_or_create_idempotency (db : Db) (key : Option String) (user_id : String)
    (store_id : Int) : Option String :=
  if !keyTruthy key then none
  else
    (db.idempotency.find? fun r =>
      r.idempotency_key == key.getD "" && r.user_id == user_id && r.store_id == store_id).map
      (fun r => r.response_json)

/-- Whether a row with the given triple already exists, i.e. whether the
uniqueness constraint of `catalogue_idempotency` would reject an insert. -/
def idemTripleExists (db : Db) (key : String) (user_id : String) (store_id : Int) : Bool :=
  db.idempotency.any fun r =>
    r.idempotency_key == key && r.user_id == user_id && r.store_id == store_id

/-- `CatalogueService._store_idempotency_response`.  A falsy key returns
without touching the database.  The `INSERT` raises when the uniqueness
constraint on the triple fires (a duplicate row exists) or on any other
database failure (`insertError` oracle); the `except Exception` branch
rolls the transaction back and swallows the exception, so the function
always returns a database state and never an error. -/
def store_idempotency_response (db : Db) (insertError : Bool) (key : Option String)
    (user_id : String) (store_id : Int) (response_json : String) : Db :=
  if !keyTruthy key then db
  else
    if insertError || idemTripleExists db (key.getD "") user_id store_id then db
    else
      { db with idempotency :=
          db.idempotency ++ [⟨key.getD "", user_id, store_id, response_json⟩] }

/-! ### Audit log (CatalogueService._log_audit) -/

/-- `_log_audit` inserts one `catalogue_audit_log` row in its own
transaction; its `except` branch rolls back and swallows the failure
(`auditError` oracle), so audit logging is best-effort. -/
def log_audit (db : Db) (auditError : Bool) (catalogue_id : String) (store_id : Option Int)
    (user_id : Option String) (action : String) (changes : String) : Db :=
  if auditError then db
  else { db with audit := db.audit ++ [⟨catalogue_id, store_id, user_id, action, changes⟩] }

/-! ### Webhook reconciler (src/catalogue.py webhook routes,
CatalogueService.update_catalogue_from_webhook / update_inventory_from_webhook) -/

/-- Environment of `_verify_shopify_webhook`: the configured secret
(`os.environ.get("SHOPIFY_WEBHOOK_SECRET", "")`) and the HMAC primitive.
`hmacSha256B64 secret body` stands for
`base64.b64encode(hmac.new(secret.encode(), body, hashlib.sha256).digest()).decode()`;
the cryptographic hash itself is kept abstract as a function parameter. -/
structure WebhookEnv where
  secret : String
  hmacSha256B64 : String → String → String

/-- `hmac.compare_digest`: its functional behaviour is string equality
(the constant-time execution itself is a timing property outside a
functional model). -/
def compare_digest (a b : String) : Bool := a == b

/-- `_verify_shopify_webhook`: fail closed on an unconfigured secret,
else compare the computed digest with the `X-Shopify-Hmac-SHA256` header
(absent header defaults to `""`). -/
def verify_shopify_webhook (env : WebhookEnv) (rawBody : String) (hmacHeader : String) :
    Bool :=
  if env.secret == "" then false
  else compare_digest (env.hmacSha256B64 env.secret rawBody) hmacHeader

/-- The fields `update_catalogue_from_webhook` reads from a Shopify
`products/update` webhook JSON body, each via `payload.get(...)`. -/
structure ProductWebhookPayload where
  id : Option Int
  title : Option String
  body_html : Option String
  vendor : Option String
  product_type : Option String
  tags : Option String
deriving Repr, DecidableEq

/-- `str(payload.get("id"))`: Python stringifies a missing id to
`"None"`. -/
def pyStrOfId : Option Int → String
  | some n => toString n
  | none => "None"

/-- The `SELECT ... FROM catalogue_shopify_mapping m JOIN catalogue c ...
WHERE m.shopify_product_id = %s` lookup: the catalogue row of the first
mapping row carrying the remote product id (inner join, so a mapping
without a catalogue row yields nothing). -/
def webhookJoinRow (db : Db) (spid : String) : Option CatalogueRow :=
  db.mapping.findSome? fun m =>
    if m.shopify_product_id == spid then
      db.catalogue.find? fun c => c.catalogue_id == m.catalogue_id
    else none

/-- The `UPDATE catalogue SET title = %s, description = %s, vendor = %s,
product_type = %s, tags = %s WHERE catalogue_id = %s` row transformer:
every row with the given id gets all five columns overwritten by the
payload values (`None` becomes NULL). -/
def applyWebhookProductUpdate (p : ProductWebhookPayload) (cid : String)
    (c : CatalogueRow) : CatalogueRow :=
  if c.catalogue_id == cid then
    { c with title := p.title, description := p.body_html, vendor := p.vendor,
             product_type := p.product_type, tags := p.tags }
  else c

/-- `CatalogueService.update_catalogue_from_webhook`: look up the mapping
by remote product id, overwrite the five columns, commit, then append a
webhook-tagged audit entry (its own best-effort transaction).  Returns
the `status` discriminator of the result dict together with the final
database state. -/
def update_catalogue_from_webhook (db : Db) (auditError : Bool)
    (p : ProductWebhookPayload) : String × Db :=
  let spid := pyStrOfId p.id
  match webhookJoinRow db spid with
  | none => ("error", db)
  | some c =>
      let db1 := { db with catalogue := db.catalogue.map (applyWebhookProductUpdate p c.catalogue_id) }
      let db2 := log_audit db1 auditError c.catalogue_id (some c.store_id) (some c.user_id)
                  "SYNC" ("source=shopify_webhook,shopify_product_id=" ++ spid)
      ("success", db2)

/-- The fields `update_inventory_from_webhook` reads from an
`inventory_levels/update` webhook body. -/
structure InventoryWebhookPayload where
  inventory_item_id : Option String
  location_id : Option Int
  available : Option Int
deriving Repr, DecidableEq

/-- The `INSERT ... ON DUPLICATE KEY UPDATE` upsert of
`catalogue_inventory`, keyed by `(variant_id, location_id)`. -/
def upsertInventory (rows : List InventoryRow) (variant_id location_id : String)
    (qty : Int) : List InventoryRow :=
  if rows.any fun r => r.variant_id == variant_id && r.location_id == location_id then
    rows.map fun r =>
      if r.variant_id == variant_id && r.location_id == location_id then
        { r with available_quantity := qty, sync_status := "IN_SYNC" }
      else r
  else rows ++ [⟨variant_id, location_id, qty, "IN_SYNC"⟩]

/-- `CatalogueService.update_inventory_from_webhook`: reject a payload
missing `inventory_item_id` or `location_id`, look the variant up by its
remote inventory-item id, upsert the inventory row
(`int(available) if available is not None else 0`), commit, audit. -/
def update_inventory_from_webhook (db : Db) (auditError : Bool)
    (p : InventoryWebhookPayload) : String × Db :=
  match p.inventory_item_id, p.location_id with
  | some iid, some lid =>
      match db.variants.find? (fun v => v.inventory_item_id == iid) with
      | none => ("error", db)
      | some v =>
          let qty := p.available.getD 0
          let db1 := { db with inventory := upsertInventory db.inventory v.variant_id (toString lid) qty }
          let db2 := log_audit db1 auditError v.catalogue_id none none "INVENTORY"
                      ("source=shopify_webhook,inventory_item_id=" ++ iid)
          ("success", db2)
  | _, _ => ("error", db)

/-- The `/webhooks/shopify/product-update` route: signature verification
first (401 on failure, before the body is even parsed), then the missing
`id` check (Python falsiness: absent or `0`), then the service call.  The
result is the HTTP status code and the resulting database state. -/
def webhook_product_update (env : WebhookEnv) (auditError : Bool)
    (rawBody hmacHeader : String) (payload : ProductWebhookPayload) (db : Db) : ℕ × Db :=
  if !verify_shopify_webhook env rawBody hmacHeader then (401, db)
  else
    match payload.id with
    | none => (400, db)
    | some n =>
        if n == 0 then (400, db)
        else
          let r := update_catalogue_from_webhook db auditError payload
          (if r.1 == "success" then 200 else 400, r.2)

/-- The `/webhooks/shopify/inventory-update` route: signature
verification first, then the service call. -/
def webhook_inventory_update (env : WebhookEnv) (auditError : Bool)
    (rawBody hmacHeader : String) (payload : InventoryWebhookPayload) (db : Db) : ℕ × Db :=
  if !verify_shopify_webhook env rawBody hmacHeader then (401, db)
  else
    let r := update_inventory_from_webhook db auditError payload
    (if r.1 == "success" then 200 else 400, r.2)

/-! ### Image URL validation (CatalogueService.validate_image_urls) -/

/-- What `requests.head(url, timeout=5, allow_redirects=True)` does for a
given URL: return a status code, or raise. -/
inductive ProbeResult where
  | status (code : ℕ)
  | exn
deriving Repr, DecidableEq

/-- The per-image body of `validate_image_urls`: a falsy URL (absent or
empty) is recorded as `{"image_url": None, "reason": "missing"}`; a HEAD
status `>= 400` as `status_<code>`; a raised request as `"unreachable"`. -/
def probeInvalid (probe : String → ProbeResult) (img : ImageInput) : List InvalidImage :=
  match img.image_url with
  | none => [⟨none, "missing"⟩]
  | some url =>
      if url == "" then [⟨none, "missing"⟩]
      else
        match probe url with
        | .status code => if 400 ≤ code then [⟨some url, "status_" ++ toString code⟩] else []
        | .exn => [⟨some url, "unreachable"⟩]

/-- `CatalogueService.validate_image_urls`: the `invalid` list
accumulated over the images in order. -/
def validate_image_urls (probe : String → ProbeResult) (images : List ImageInput) :
    List InvalidImage :=
  (images.map (probeInvalid probe)).flatten

/-! ### Remote product input (STEP 5 of create_catalogue_complete) -/

/-- One element of `product_input["variants"]`.  `price` is
`str(v.get("price"))`, so an absent price becomes the string `"None"`;
`compareAtPrice` is stringified only when truthy; `weightUnit` defaults
to `"KG"` and is upper-cased. -/
structure ProductVariantInput where
  sku : Option String
  price : String
  compareAtPrice : Option String
  weight : Option String
  weightUnit : String
deriving Repr, DecidableEq

/-- The `product_input` dict sent to
`shopify_client.create_product_with_variants`.  `variants` is `none` when
the request's variants list is empty (the key is only added when the list
is truthy); `tags` is `tags.split(",") if tags else []`. -/
structure ProductInput where
  title : String
  descriptionHtml : String
  vendor : String
  productType : String
  tags : List String
  variants : Option (List ProductVariantInput)
deriving Repr, DecidableEq

/-- Build one remote variant payload from one request variant. -/
def toProductVariantInput (v : VariantInput) : ProductVariantInput :=
  { sku := v.sku
    price := v.price.getD "None"
    compareAtPrice := match v.compare_at_price with
      | some s => if s == "" then none else some s
      | none => none
    weight := v.weight
    weightUnit := (v.weight_unit.getD "KG").toUpper }

/-- STEP 5: build the remote product payload. -/
def buildProductInput (title description vendor product_type tags : String)
    (variants : List VariantInput) : ProductInput :=
  { title := title
    descriptionHtml := description
    vendor := vendor
    productType := product_type
    tags := if tags == "" then [] else tags.splitOn ","
    variants := if variants.isEmpty then none else some (variants.map toProductVariantInput) }

/-! ### Effects and local transaction writes -/

/-- One `cursor.execute(INSERT ...)` of the LOCAL_PERSISTING transaction. -/
inductive DbWrite where
  | catalogueInsert (row : CatalogueRow)
  | mappingInsert (row : MappingRow)
  | variantInsert (row : VariantRow)
  | imageInsert (row : ImageRow)
deriving Repr, DecidableEq

/-- Apply one committed write to the store. -/
def applyWrite (db : Db) : DbWrite → Db
  | .catalogueInsert r => { db with catalogue := db.catalogue ++ [r] }
  | .mappingInsert r => { db with mapping := db.mapping ++ [r] }
  | .variantInsert r => { db with variants := db.variants ++ [r] }
  | .imageInsert r => { db with images := db.images ++ [r] }

/-- Apply a whole buffered transaction at commit time. -/
def applyWrites (db : Db) (ws : List DbWrite) : Db := ws.foldl applyWrite db

/-- Externally visible actions of the creation flow, in program order. -/
inductive Effect where
  | ownershipQuery (store_id : Int) (user_id : String)
  | storeConfigFetch (store_id : Int)
  | imageProbe (url : String)
  | remoteCreateProduct (input : ProductInput)
  | remoteCreateMedia (image_url : Option String)
  | remoteReorderMedia (product_id : String) (media_ids : List String)
  | remoteDeleteProduct (product_id : String)
  | sleep (seconds : ℕ)
  | dbExec (w : DbWrite)
  | dbCommit
  | dbRollback
deriving Repr, DecidableEq

/-- The HEAD probes `validate_image_urls` actually issues: one per image
whose URL is truthy (falsy URLs are recorded as invalid without any
network call). -/
def probeEffects (images : List ImageInput) : List Effect :=
  images.filterMap fun img =>
    match img.image_url with
    | some url => if url == "" then none else some (Effect.imageProbe url)
    | none => none

/-! ### Environment oracles of one create run -/

/-- Everything outside the program state that one run of the creation
flow observes: exception oracles for the database and token layers, the
HEAD probe, the per-attempt outcomes of each remote call site, the
generated UUIDs, and the failure oracle of the local transaction. -/
structure CreateEnv where
  ownershipDbError : Bool
  configError : Bool
  probe : String → ProbeResult
  createOutcomes : ℕ → CallOutcome ShopifyProduct
  uploadOutcomes : ℕ → ℕ → CallOutcome ShopifyMedia
  reorderOutcomes : ℕ → CallOutcome (List String)
  freshCatalogueId : String
  freshVariantIds : ℕ → String
  freshImageIds : ℕ → String
  dbFailures : ℕ → Option String
  auditError : Bool
  idemInsertError : Bool

/-! ### Store config (shopify_helpers.get_store_config / Fetch.get_store_by_id) -/

/-- `Fetch.get_store_by_id(store_id, user_id)`: with a truthy user the
query filters on both columns, with a falsy one only on `store_id`; the
`is_active` flag is not consulted here. -/
def get_store_by_id (db : Db) (store_id : Int) (user_id : String) : Option StoreRow :=
  if user_id == "" then db.stores.find? fun s => s.store_id == store_id
  else db.stores.find? fun s => s.store_id == store_id && s.user_id == user_id

/-- `get_store_config`: `AuthorizationError` when the store row is
missing, and any token-decryption or client-construction failure
(`configError` oracle) propagates as a generic exception. -/
def get_store_config (db : Db) (configError : Bool) (store_id : Int) (user_id : String) :
    Except PyError Unit :=
  match get_store_by_id db store_id user_id with
  | none => .error (.authorization "Store not found or access denied")
  | some _ => if configError then .error (.generic "token decryption failed") else .ok ()

/-! ### STEP 7: image uploads -/

/-- One entry of the `shopify_images` accumulator: remote media id,
position (`img.get("position", len(shopify_images))`, i.e. defaulting to
the insertion index), and the echoed url / alt text. -/
structure UploadedImage where
  shopify_media_id : String
  position : Int
  image_url : Option String
  alt_text : Option String
deriving Repr, DecidableEq

/-- The image-upload loop.  Each image goes through
`_retry_shopify_call(lambda: shopify_client.create_product_media(...))`;
a raised error (fatal, or terminal after retries) propagates out of the
loop at once.  `acc` is the `shopify_images` list built so far; its
length is the defaulting insertion index of the current image. -/
def uploadImagesGo (env : CreateEnv) :
    List ImageInput → List UploadedImage → Except PyError (List UploadedImage) × List Effect
  | [], acc => (.ok acc, [])
  | img :: rest, acc =>
      let r := retry_shopify_call (env.uploadOutcomes acc.length)
      let effs := Effect.remoteCreateMedia img.image_url :: r.sleeps.map Effect.sleep
      match r.result with
      | .error e => (.error e, effs)
      | .ok media =>
          let entry : UploadedImage :=
            ⟨media.id, img.position.getD (acc.length : Int), img.image_url, img.alt_text⟩
          let next := uploadImagesGo env rest (acc ++ [entry])
          (next.1, effs ++ next.2)

/-! ### Media ordering (the `sorted(shopify_images, key=...)` reorder step) -/

/-- The key order of `sorted(shopify_images, key=lambda x: x["position"])`. -/
def posLE (a b : UploadedImage) : Prop := a.position ≤ b.position

instance : DecidableRel posLE := fun a b => inferInstanceAs (Decidable (a.position ≤ b.position))

instance : IsTotal UploadedImage posLE := ⟨fun a b => le_total a.position b.position⟩

instance : IsTrans UploadedImage posLE := ⟨fun _ _ _ h1 h2 => le_trans h1 h2⟩

/-- `[img["shopify_media_id"] for img in sorted(shopify_images, key=...)]`.
Python's `sorted` is the stable ascending sort, whose output is uniquely
characterized by sortedness, permutation, and preservation of the
relative order of equal keys; `List.insertionSort` with a `≤` relation is
exactly that sort (the three properties are proved below). -/
def sortedMediaIds (uploaded : List UploadedImage) : List String :=
  (List.insertionSort posLE uploaded).map (fun u => u.shopify_media_id)

/-- The `if shopify_images:` reorder step: zero uploaded images issue no
call; otherwise a single `reorder_product_media` call through the retry
executor with the position-sorted media ids. -/
def mediaOrderingStep (env : CreateEnv) (pid : String) (uploaded : List UploadedImage) :
    Except PyError (List String) × List Effect :=
  if uploaded.isEmpty then (.ok [], [])
  else
    let r := retry_shopify_call env.reorderOutcomes
    (r.result, Effect.remoteReorderMedia pid (sortedMediaIds uploaded) :: r.sleeps.map Effect.sleep)

/-! ### STEP 8: the LOCAL_PERSISTING transaction -/

/-- The `catalogue` row inserted at STEP 8.  The `price` column receives
`variants[0].get("price") if variants else 0` (an absent first-variant
price is inserted as NULL; the no-variants literal `0` is rendered as the
decimal string `"0"`). -/
def catalogueRowOf (cid : String) (store_id : Int) (user_id title description vendor
    product_type tags : String) (variants : List VariantInput) : CatalogueRow :=
  { catalogue_id := cid, store_id := store_id, user_id := user_id,
    title := some title, description := some description, vendor := some vendor,
    product_type := some product_type, tags := some tags, status := "ACTIVE",
    price := match variants.head? with
      | some v => v.price
      | none => some "0" }

/-- The `catalogue_shopify_mapping` row inserted at STEP 8. -/
def mappingRowOf (cid : String) (product_id : String) (store_id : Int) : MappingRow :=
  { catalogue_id := cid, shopify_product_id := product_id, store_id := store_id,
    last_sync_status := "SUCCESS" }

/-- The ordered `cursor.execute` INSERT list of the STEP 8 transaction:
base product, Shopify mapping, one row per remote variant (ids from
`uuid.uuid4()`), one row per uploaded image. -/
def createWrites (env : CreateEnv) (cid : String) (store_id : Int)
    (user_id title description vendor product_type tags : String)
    (variants : List VariantInput) (product : ShopifyProduct)
    (uploaded : List UploadedImage) : List DbWrite :=
  [DbWrite.catalogueInsert (catalogueRowOf cid store_id user_id title description vendor
      product_type tags variants),
   DbWrite.mappingInsert (mappingRowOf cid product.id store_id)]
  ++ product.variants.enum.map (fun p => DbWrite.variantInsert
      { variant_id := env.freshVariantIds p.1, catalogue_id := cid,
        shopify_variant_id := p.2.id, sku := p.2.sku, price := p.2.price.getD "0",
        inventory_item_id := p.2.inventoryItemId, status := "ACTIVE" })
  ++ uploaded.enum.map (fun p => DbWrite.imageInsert
      { image_id := env.freshImageIds p.1, catalogue_id := cid,
        shopify_media_id := p.2.shopify_media_id, image_url := p.2.image_url,
        alt_text := p.2.alt_text, position := p.2.position, uploaded_by := user_id })

/-- The first statement of the transaction whose `cursor.execute` raises,
with the driver's error message, if any. -/
def firstDbFailure (dbFailures : ℕ → Option String) (n : ℕ) : Option (ℕ × String) :=
  (List.range n).findSome? fun k => (dbFailures k).map fun m => (k, m)

/-- The STEP 8 transaction body: execute the INSERTs in order; if one
raises, roll back (the already-executed statements are discarded) and
raise `Exception(f"Database operation failed: ...")`; otherwise commit,
applying all writes. -/
def localPersistStep (env : CreateEnv) (db : Db) (writes : List DbWrite) :
    Except String Db × List Effect :=
  match firstDbFailure env.dbFailures writes.length with
  | some km =>
      (.error ("Database operation failed: " ++ km.2),
        ((writes.take km.1).map Effect.dbExec) ++ [Effect.dbRollback])
  | none => (.ok (applyWrites db writes), (writes.map Effect.dbExec) ++ [Effect.dbCommit])

/-- The success payload of `create_catalogue_complete`. -/
structure CreateOk where
  catalogue_id : String
  shopify_product_id : String
  variants_count : ℕ
  images_count : ℕ
  status : String
deriving Repr, DecidableEq

/-- The `changes` JSON of the CREATE audit entry, rendered flatly. -/
def createAuditChanges (pid : String) (vc ic : ℕ) : String :=
  "shopify_product_id=" ++ pid ++ ",variants_count=" ++ toString vc
    ++ ",images_count=" ++ toString ic

/-- `CatalogueService.create_catalogue_complete`, in the source's step
order: ownership check, store config, image-URL validation, remote
create through the retry executor, per-image upload, media reorder,
local transaction, audit.  The result is the returned dict or raised
exception, the final database state, and the effect trace. -/
def create_catalogue_complete (env : CreateEnv) (db : Db)
    (title description vendor product_type tags : String) (store_id : Int)
    (variants : List VariantInput) (images : List ImageInput) (user_id : String) :
    Except PyError CreateOk × Db × List Effect :=
  let effs0 := [Effect.ownershipQuery store_id user_id]
  if !verify_store_ownership db env.ownershipDbError store_id user_id then
    (.error (.authorization "Unauthorized: You do not own this store"), db, effs0)
  else
    let effs1 := effs0 ++ [Effect.storeConfigFetch store_id]
    match get_store_config db env.configError store_id user_id with
    | .error e => (.error e, db, effs1)
    | .ok _ =>
        let invalid := validate_image_urls env.probe images
        let effs2 := effs1 ++ probeEffects images
        if !invalid.isEmpty then (.error (.validation invalid), db, effs2)
        else
          let rc := retry_shopify_call env.createOutcomes
          let effs3 := effs2
            ++ [Effect.remoteCreateProduct (buildProductInput title description vendor
                  product_type tags variants)]
            ++ rc.sleeps.map Effect.sleep
          match rc.result with
          | .error e => (.error e, db, effs3)
          | .ok product =>
              let up := uploadImagesGo env images []
              let effs4 := effs3 ++ up.2
              match up.1 with
              | .error e => (.error e, db, effs4)
              | .ok uploaded =>
                  let ro := mediaOrderingStep env product.id uploaded
                  let effs5 := effs4 ++ ro.2
                  match ro.1 with
                  | .error e => (.error e, db, effs5)
                  | .ok _ =>
                      let cid := env.freshCatalogueId
                      let writes := createWrites env cid store_id user_id title description
                        vendor product_type tags variants product uploaded
                      let lp := localPersistStep env db writes
                      let effs6 := effs5 ++ lp.2
                      match lp.1 with
                      | .error msg => (.error (.generic msg), db, effs6)
                      | .ok db2 =>
                          let db3 := log_audit db2 env.auditError cid (some store_id)
                            (some user_id) "CREATE"
                            (createAuditChanges product.id product.variants.length
                              uploaded.length)
                          (.ok { catalogue_id := cid, shopify_product_id := product.id,
                                 variants_count := product.variants.length,
                                 images_count := uploaded.length, status := "SUCCESS" },
                            db3, effs6)

/-! ### The POST /catalogue endpoint (src/catalogue.py create_catalogue) -/

/-- The JSON body of the endpoint's response, reduced to what the claims
observe. -/
inductive RespBody where
  | cachedPayload (json : String)
  | created (r : CreateOk)
  | raisedError (e : PyError)
  | plainError (msg : String)
deriving Repr, DecidableEq

/-- The endpoint's observable outcome. -/
structure EndpointOut where
  status : ℕ
  body : RespBody
  db : Db
  effects : List Effect
deriving Repr, DecidableEq

/-- The route's `except` clauses: ValidationError 400,
AuthorizationError 403, ShopifyAPIError 502, anything else 500. -/
def statusOfError : PyError → ℕ
  | .validation _ => 400
  | .authorization _ => 403
  | .shopifyAPI _ => 502
  | .generic _ => 500

/-- The stand-in for `json.dumps(result)` on the success payload stored
into the idempotency table; no claim inspects its inner structure. -/
def okJson (r : CreateOk) : String :=
  "catalogue_id=" ++ r.catalogue_id ++ ",shopify_product_id=" ++ r.shopify_product_id
    ++ ",variants_count=" ++ toString r.variants_count
    ++ ",images_count=" ++ toString r.images_count ++ ",status=" ++ r.status

/-- The fresh-execution path of the route (everything after the
idempotency lookup missed): run `create_catalogue_complete`, store the
idempotency response on success (201), or map the raised exception to its
status code. -/
def create_catalogue_fresh (env : CreateEnv) (db : Db) (idempotency_key : Option String)
    (title description vendor product_type tags : String) (store_id : Int)
    (variants : List VariantInput) (images : List ImageInput) (user_id : String) :
    EndpointOut :=
  let r := create_catalogue_complete env db title description vendor product_type tags
    store_id variants images user_id
  match r.1 with
  | .ok ok =>
      let db2 := store_idempotency_response r.2.1 env.idemInsertError idempotency_key
        user_id store_id (okJson ok)
      { status := 201, body := .created ok, db := db2, effects := r.2.2 }
  | .error e =>
      { status := statusOfError e, body := .raisedError e, db := r.2.1, effects := r.2.2 }

/-- The `POST /catalogue` route body after JSON parsing: required-field
checks (stripped title/description non-empty, store_id present), then the
idempotency lookup — a hit returns the stored payload with 200 and does
nothing else — then the fresh path. -/
def create_catalogue_endpoint (env : CreateEnv) (db : Db) (idempotency_key : Option String)
    (title description vendor product_type tags : String) (store_id : Option Int)
    (variants : List VariantInput) (images : List ImageInput) (user_id : String) :
    EndpointOut :=
  if title == "" || description == "" then
    { status := 400, body := .plainError "title and description are required",
      db := db, effects := [] }
  else
    match store_id with
    | none => { status := 400, body := .plainError "store_id is required",
                db := db, effects := [] }
    | some sid =>
        match get_or_create_idempotency db idempotency_key user_id sid with
        | some cached =>
            { status := 200, body := .cachedPayload cached, db := db, effects := [] }
        | none =>
            create_catalogue_fresh env db idempotency_key title description vendor
              product_type tags sid variants images user_id

/-! ### Invariants -/

/-- The mapping-without-product query of the spec's ordering invariant:
no `catalogue_shopify_mapping` row lacks its `catalogue` row. -/
def noOrphans (db : Db) : Prop :=
  ∀ m ∈ db.mapping, ∃ c ∈ db.catalogue, c.catalogue_id = m.catalogue_id

/-! ### Concrete instances (used by witnesses and counterexamples) -/

/-- An environment in which every external interaction succeeds. -/
def envAllOk : CreateEnv :=
  { ownershipDbError := false
    configError := false
    probe := fun _ => .status 200
    createOutcomes := fun _ => .ok ⟨"P1", "T", [⟨"V1", some "s", some "9", "I1"⟩]⟩
    uploadOutcomes := fun idx _ => .ok ⟨"M" ++ toString idx⟩
    reorderOutcomes := fun _ => .ok []
    freshCatalogueId := "CID"
    freshVariantIds := fun n => "VR" ++ toString n
    freshImageIds := fun n => "IM" ++ toString n
    dbFailures := fun _ => none
    auditError := false
    idemInsertError := false }

/-- A store owned by user `"u"` with id 1, nothing else. -/
def dbOneStore : Db :=
  { stores := [⟨1, "u", true⟩], catalogue := [], mapping := [],
    variants := [], images := [], idempotency := [], audit := [], inventory := [] }

/-- `dbOneStore` with a stored idempotency response for key `"K"`. -/
def dbWithIdem : Db := { dbOneStore with idempotency := [⟨"K", "u", 1, "resp"⟩] }

/-- `envAllOk` but every image upload attempt fails with a connection
error, so each upload exhausts its retries. -/
def envUploadsFail : CreateEnv :=
  { envAllOk with uploadOutcomes := fun _ _ => .retryable "connection reset" }

/-- An empty relational store. -/
def dbEmpty : Db :=
  { stores := [], catalogue := [], mapping := [], variants := [], images := [],
    idempotency := [], audit := [], inventory := [] }

/-- A database holding one catalogue row `"C1"` mapped to the remote
product id `"77"`. -/
def dbMapped : Db :=
  { dbEmpty with
    catalogue := [⟨"C1", 1, "u", some "old title", some "old desc", some "old vendor",
      some "old type", some "old tags", "ACTIVE", some "9"⟩],
    mapping := [⟨"C1", "77", 1, "SUCCESS"⟩] }

/-- A product-update webhook payload carrying only a title (all other
mutable fields absent). -/
def partialWebhookPayload : ProductWebhookPayload :=
  { id := some 77, title := some "new title", body_html := none, vendor := none,
    product_type := none, tags := none }

/-- A webhook environment with no configured secret. -/
def webhookEnvNoSecret : WebhookEnv := { secret := "", hmacSha256B64 := fun _ _ => "D" }

/-- A webhook environment whose digest function never matches the header
used in the witness. -/
def webhookEnvMismatch : WebhookEnv := { secret := "s", hmacSha256B64 := fun _ _ => "D" }

/-- First two attempts raise a connection error, the third returns 7. -/
def callsThirdOk : ℕ → CallOutcome ℕ := fun n => if n ≤ 2 then .retryable "conn reset" else .ok 7

/-- Every attempt raises a fatal (Shopify user-error) exception. -/
def callsFatal : ℕ → CallOutcome ℕ := fun _ => .fatal (.shopifyAPI "invalid title")

/-- Every attempt raises a connection error. -/
def callsAllFail : ℕ → CallOutcome ℕ := fun n => .retryable ("timeout " ++ toString n)

/-! ### Observation helpers (not part of the embedded code) -/

/-- The catalogue row inserted by a transaction write, if any. -/
def writeCatRow : DbWrite → Option CatalogueRow
  | .catalogueInsert r => some r
  | _ => none

/-- The mapping row inserted by a transaction write, if any. -/
def writeMapRow : DbWrite → Option MappingRow
  | .mappingInsert r => some r
  | _ => none

/-- Recognizes a media-reorder remote call in the trace. -/
def isReorderEff : Effect → Bool
  | .remoteReorderMedia _ _ => true
  | _ => false

/-- Recognizes a remote product-delete call in the trace. -/
def isRemoteDeleteEff : Effect → Bool
  | .remoteDeleteProduct _ => true
  | _ => false

/-- Recognizes any local-transaction activity in the trace. -/
def isDbEff : Effect → Bool
  | .dbExec _ => true
  | .dbCommit => true
  | .dbRollback => true
  | _ => false

/-- The positions the upload loop assigns, starting from insertion index
`startIdx`: the request's `position` when present, else the insertion
index (`img.get("position", len(shopify_images))`). -/
def defaultPositions (startIdx : ℕ) : List ImageInput → List Int
  | [] => []
  | img :: rest => img.position.getD (startIdx : Int) :: defaultPositions (startIdx + 1) rest

/-- Three images with user-supplied positions `[2, 0, 1]` (the spec's
media-ordering round-trip test). -/
def imgs3 : List ImageInput :=
  [⟨some "http:a", none, some 2⟩, ⟨some "http:b", none, some 0⟩, ⟨some "http:c", none, some 1⟩]

/-- What `envAllOk` uploads `imgs3` to: media ids `M0, M1, M2` in request
order, carrying positions `[2, 0, 1]`. -/
def up3 : List UploadedImage :=
  [⟨"M0", 2, some "http:a", none⟩, ⟨"M1", 0, some "http:b", none⟩,
   ⟨"M2", 1, some "http:c", none⟩]

/-- The remote product `envAllOk` returns. -/
def prod1 : ShopifyProduct := ⟨"P1", "T", [⟨"V1", some "s", some "9", "I1"⟩]⟩

/-! ## Helper lemmas -/

theorem log_audit_catalogue (db : Db) (ae : Bool) (cid : String) (sid : Option Int)
    (uid : Option String) (a ch : String) :
    (log_audit db ae cid sid uid a ch).catalogue = db.catalogue := by
  unfold log_audit; split <;> rfl

theorem log_audit_mapping (db : Db) (ae : Bool) (cid : String) (sid : Option Int)
    (uid : Option String) (a ch : String) :
    (log_audit db ae cid sid uid a ch).mapping = db.mapping := by
  unfold log_audit; split <;> rfl

/-! ## C10 -/

/-- C10: `verify_store_ownership` is a total Boolean function of its
inputs (the `except` branch reports any lookup failure as `False`, so it
cannot raise); it returns `true` exactly when the lookup succeeded and an
active `stores` row matching `(store_id, user_id)` exists, and `false`
both when no such row exists and when the lookup fails. -/
theorem C10_verify_store_ownership_total (db : Db) (dbError : Bool) (sid : Int)
    (uid : String) :
    verify_store_ownership db dbError sid uid = true ↔
      dbError = false ∧
        ∃ s ∈ db.stores, s.store_id = sid ∧ s.user_id = uid ∧ s.is_active = true := by
  unfold verify_store_ownership
  cases dbError <;> simp [List.find?_isSome, and_assoc]

/-- Witness for C10 at a concrete store table. -/
theorem C10_witness :
    (verify_store_ownership dbOneStore false 1 "u" = true ↔
      false = false ∧
        ∃ s ∈ dbOneStore.stores, s.store_id = 1 ∧ s.user_id = "u" ∧ s.is_active = true) ∧
    verify_store_ownership dbOneStore false 1 "u" = true ∧
    verify_store_ownership dbOneStore true 1 "u" = false := by
  refine ⟨C10_verify_store_ownership_total dbOneStore false 1 "u", by decide, by decide⟩

/-! ## C8 -/

/-- C8: `_store_idempotency_response` never raises to its caller: it is a
total function into database states.  A falsy key writes nothing; a
failing insert — including the uniqueness-constraint violation fired by a
duplicate `(key, user, store)` triple from a concurrent insert — rolls
back and returns the store unchanged; and in every case only the
idempotency table can differ from the input state. -/
theorem C8_store_idempotency_never_raises (db : Db) (insertError : Bool)
    (key : Option String) (uid : String) (sid : Int) (resp : String) :
    (keyTruthy key = false →
      store_idempotency_response db insertError key uid sid resp = db) ∧
    (insertError = true ∨ idemTripleExists db (key.getD "") uid sid = true →
      store_idempotency_response db insertError key uid sid resp = db) ∧
    ((store_idempotency_response db insertError key uid sid resp).stores = db.stores ∧
     (store_idempotency_response db insertError key uid sid resp).catalogue = db.catalogue ∧
     (store_idempotency_response db insertError key uid sid resp).mapping = db.mapping ∧
     (store_idempotency_response db insertError key uid sid resp).variants = db.variants ∧
     (store_idempotency_response db insertError key uid sid resp).images = db.images ∧
     (store_idempotency_response db insertError key uid sid resp).audit = db.audit ∧
     (store_idempotency_response db insertError key uid sid resp).inventory = db.inventory) := by
  refine ⟨fun h => by simp [store_idempotency_response, h], fun h => ?_, ?_⟩
  · unfold store_idempotency_response
    split
    · rfl
    · rcases h with h | h <;> simp [h]
  · unfold store_idempotency_response
    split
    · exact ⟨rfl, rfl, rfl, rfl, rfl, rfl, rfl⟩
    · split <;> exact ⟨rfl, rfl, rfl, rfl, rfl, rfl, rfl⟩

/-- Witness for C8: a duplicate triple insert (the stored key `"K"` of
`dbWithIdem`) returns the database unchanged, and an absent key writes
nothing. -/
theorem C8_witness :
    store_idempotency_response dbWithIdem false (some "K") "u" 1 "other" = dbWithIdem ∧
    store_idempotency_response dbWithIdem true (some "K2") "u" 1 "other" = dbWithIdem ∧
    store_idempotency_response dbWithIdem false none "u" 1 "other" = dbWithIdem := by
  refine ⟨?_, ?_, ?_⟩
  · exact (C8_store_idempotency_never_raises dbWithIdem false (some "K") "u" 1 "other").2.1
      (Or.inr (by decide))
  · exact (C8_store_idempotency_never_raises dbWithIdem true (some "K2") "u" 1 "other").2.1
      (Or.inl rfl)
  · exact (C8_store_idempotency_never_raises dbWithIdem false none "u" 1 "other").1 rfl

/-! ## C2 -/

/-- C2: for the retry executor `_retry_shopify_call` (3 attempts, base
delay 2 s): a callable that raises a connection-class error on attempts 1
and 2 and succeeds on attempt 3 returns the successful value after
exactly the two backoff sleeps `2 * 1 = 2` s and `2 * 2 = 4` s; a fatal
error on the first attempt propagates unchanged after exactly 1 call and
no sleep; and three retryable failures raise the terminal error wrapping
the last failure's message. -/
theorem C2_retry_executor (α : Type) (f g k : ℕ → CallOutcome α) (a : α)
    (m1 m2 m3 : String) (e : PyError) :
    (f 1 = .retryable m1 → f 2 = .retryable m2 → f 3 = .ok a →
      retry_shopify_call f = ⟨.ok a, [2 * 1, 2 * 2], 3⟩) ∧
    (g 1 = .fatal e → retry_shopify_call g = ⟨.error e, [], 1⟩) ∧
    (k 1 = .retryable m1 → k 2 = .retryable m2 → k 3 = .retryable m3 →
      retry_shopify_call k =
        ⟨.error (.generic ("Shopify call failed after retries: " ++ m3)),
          [2 * 1, 2 * 2, 2 * 3], 3⟩) := by
  refine ⟨fun h1 h2 h3 => ?_, fun h1 => ?_, fun h1 h2 h3 => ?_⟩
  · simp [retry_shopify_call, retryLoop, h1, h2, h3]
  · simp [retry_shopify_call, retryLoop, h1]
  · simp [retry_shopify_call, retryLoop, h1, h2, h3]

/-- Witness for C2 at three concrete callables. -/
theorem C2_witness :
    retry_shopify_call callsThirdOk = ⟨.ok 7, [2 * 1, 2 * 2], 3⟩ ∧
    retry_shopify_call callsFatal = ⟨.error (.shopifyAPI "invalid title"), [], 1⟩ ∧
    retry_shopify_call callsAllFail =
      ⟨.error (.generic ("Shopify call failed after retries: " ++ "timeout 3")),
        [2 * 1, 2 * 2, 2 * 3], 3⟩ := by
  obtain ⟨h1, h2, _⟩ := C2_retry_executor ℕ callsThirdOk callsFatal callsAllFail 7
    "conn reset" "conn reset" "unused" (.shopifyAPI "invalid title")
  obtain ⟨_, _, h3⟩ := C2_retry_executor ℕ callsThirdOk callsFatal callsAllFail 7
    "timeout 1" "timeout 2" "timeout 3" (.shopifyAPI "invalid title")
  exact ⟨h1 (by decide) (by decide) (by decide), h2 (by decide),
    h3 (by decide) (by decide) (by decide)⟩

/-! ## C4 -/

/-- C4: both webhook handlers reject a request whose configured secret is
empty or whose computed body HMAC does not equal the signature header
(the functional content of `hmac.compare_digest` is equality): they
return 401 with the database untouched — no business logic, no writes. -/
theorem C4_webhook_signature_rejection (env : WebhookEnv) (rawBody hmacHeader : String)
    (pp : ProductWebhookPayload) (ip : InventoryWebhookPayload) (ae1 ae2 : Bool) (db : Db)
    (h : env.secret = "" ∨ env.hmacSha256B64 env.secret rawBody ≠ hmacHeader) :
    webhook_product_update env ae1 rawBody hmacHeader pp db = (401, db) ∧
    webhook_inventory_update env ae2 rawBody hmacHeader ip db = (401, db) := by
  have hv : verify_shopify_webhook env rawBody hmacHeader = false := by
    unfold verify_shopify_webhook compare_digest
    rcases h with h | h
    · simp [h]
    · split
      · rfl
      · exact beq_eq_false_iff_ne.mpr h
  constructor
  · simp [webhook_product_update, hv]
  · simp [webhook_inventory_update, hv]

/-- Witness for C4: a missing secret and a digest mismatch each yield 401
and an unchanged database (in particular an unchanged audit log). -/
theorem C4_witness :
    webhook_product_update webhookEnvNoSecret false "body" "D" partialWebhookPayload dbMapped
      = (401, dbMapped) ∧
    webhook_inventory_update webhookEnvMismatch false "body" "X" ⟨some "I1", some 9, some 5⟩
      dbMapped = (401, dbMapped) := by
  refine ⟨(C4_webhook_signature_rejection webhookEnvNoSecret "body" "D" partialWebhookPayload
      ⟨some "I1", some 9, some 5⟩ false false dbMapped (Or.inl rfl)).1,
    (C4_webhook_signature_rejection webhookEnvMismatch "body" "X" partialWebhookPayload
      ⟨some "I1", some 9, some 5⟩ false false dbMapped (Or.inr (by decide))).2⟩

/-! ## C9 -/

/-- C9: when a product-updated webhook's remote id has a known mapping,
the handler overwrites all five mutable columns of every row with the
mapped catalogue id by the payload's `get` values unconditionally, so a
field absent from the payload is written as NULL (`none`) rather than
left unchanged. -/
theorem C9_webhook_overwrites_all_fields (db : Db) (ae : Bool)
    (p : ProductWebhookPayload) (c : CatalogueRow)
    (hfind : webhookJoinRow db (pyStrOfId p.id) = some c) :
    (update_catalogue_from_webhook db ae p).1 = "success" ∧
    ∀ row ∈ (update_catalogue_from_webhook db ae p).2.catalogue,
      row.catalogue_id = c.catalogue_id →
        row.title = p.title ∧ row.description = p.body_html ∧ row.vendor = p.vendor ∧
        row.product_type = p.product_type ∧ row.tags = p.tags := by
  simp only [update_catalogue_from_webhook, hfind]
  refine ⟨trivial, ?_⟩
  intro row hrow hid
  rw [log_audit_catalogue] at hrow
  obtain ⟨orig, -, rfl⟩ := List.mem_map.mp hrow
  unfold applyWebhookProductUpdate at hid ⊢
  by_cases horig : orig.catalogue_id == c.catalogue_id
  · simp [horig]
  · rw [if_neg horig] at hid
    exact absurd (beq_iff_eq.mpr hid) horig

/-- Witness for C9: the payload carries only a new title, and after the
update the mirrored row's description, vendor, product_type and tags are
all NULL, not their previous values. -/
theorem C9_witness :
    (update_catalogue_from_webhook dbMapped false partialWebhookPayload).1 = "success" ∧
    ∀ row ∈ (update_catalogue_from_webhook dbMapped false partialWebhookPayload).2.catalogue,
      row.catalogue_id = "C1" →
        row.title = some "new title" ∧ row.description = none ∧ row.vendor = none ∧
        row.product_type = none ∧ row.tags = none := by
  exact C9_webhook_overwrites_all_fields dbMapped false partialWebhookPayload
    ⟨"C1", 1, "u", some "old title", some "old desc", some "old vendor",
      some "old type", some "old tags", "ACTIVE", some "9"⟩ (by decide)

/-! ## C1 -/

/-- C1: with the required fields present, a create request whose
idempotency lookup hits a stored record for the exact triple returns the
stored payload with 200, an unchanged database and an empty effect trace
(no remote create call, no local write); a falsy (absent or empty) key
makes the lookup return `none`, and the endpoint then runs exactly the
fresh execution path. -/
theorem C1_idempotency_short_circuit (env : CreateEnv) (db : Db) (key : Option String)
    (title description vendor product_type tags : String) (sid : Int)
    (vars : List VariantInput) (imgs : List ImageInput) (uid resp : String) :
    (title ≠ "" → description ≠ "" →
      get_or_create_idempotency db key uid sid = some resp →
      create_catalogue_endpoint env db key title description vendor product_type tags
          (some sid) vars imgs uid
        = { status := 200, body := .cachedPayload resp, db := db, effects := [] }) ∧
    (keyTruthy key = false → get_or_create_idempotency db key uid sid = none) ∧
    (keyTruthy key = false → title ≠ "" → description ≠ "" →
      create_catalogue_endpoint env db key title description vendor product_type tags
          (some sid) vars imgs uid
        = create_catalogue_fresh env db key title description vendor product_type tags
            sid vars imgs uid) := by
  have hlookup : keyTruthy key = false → get_or_create_idempotency db key uid sid = none := by
    intro h
    simp [get_or_create_idempotency, h]
  refine ⟨fun ht hd hhit => ?_, hlookup, fun hk ht hd => ?_⟩
  · have hcond : (title == "" || description == "") = false := by simp [ht, hd]
    simp only [create_catalogue_endpoint, hcond, Bool.false_eq_true, if_false, hhit]
  · have hcond : (title == "" || description == "") = false := by simp [ht, hd]
    simp only [create_catalogue_endpoint, hcond, Bool.false_eq_true, if_false, hlookup hk]

/-- Witness for C1: a stored record for key `"K"` short-circuits with the
stored payload, and an absent key falls through to the fresh path. -/
theorem C1_witness :
    (create_catalogue_endpoint envAllOk dbWithIdem (some "K") "t" "d" "v" "pt" ""
        (some 1) [] [] "u"
      = { status := 200, body := .cachedPayload "resp", db := dbWithIdem, effects := [] }) ∧
    get_or_create_idempotency dbWithIdem none "u" 1 = none ∧
    (create_catalogue_endpoint envAllOk dbWithIdem none "t" "d" "v" "pt" ""
        (some 1) [] [] "u"
      = create_catalogue_fresh envAllOk dbWithIdem none "t" "d" "v" "pt" "" 1 [] [] "u") := by
  obtain ⟨h1, h2, h3⟩ := C1_idempotency_short_circuit envAllOk dbWithIdem (some "K")
    "t" "d" "v" "pt" "" 1 [] [] "u" "resp"
  obtain ⟨-, h5, h6⟩ := C1_idempotency_short_circuit envAllOk dbWithIdem none
    "t" "d" "v" "pt" "" 1 [] [] "u" "resp"
  exact ⟨h1 (by decide) (by decide) (by decide), h5 rfl,
    h6 rfl (by decide) (by decide)⟩

/-! ## Flow helper lemmas -/

theorem applyWrites_catalogue (ws : List DbWrite) (db : Db) :
    (applyWrites db ws).catalogue = db.catalogue ++ ws.filterMap writeCatRow := by
  induction ws generalizing db with
  | nil => simp [applyWrites]
  | cons w ws ih =>
      have h1 : applyWrites db (w :: ws) = applyWrites (applyWrite db w) ws := rfl
      rw [h1, ih]
      cases w <;> simp [applyWrite, writeCatRow]

theorem applyWrites_mapping (ws : List DbWrite) (db : Db) :
    (applyWrites db ws).mapping = db.mapping ++ ws.filterMap writeMapRow := by
  induction ws generalizing db with
  | nil => simp [applyWrites]
  | cons w ws ih =>
      have h1 : applyWrites db (w :: ws) = applyWrites (applyWrite db w) ws := rfl
      rw [h1, ih]
      cases w <;> simp [applyWrite, writeMapRow]

theorem filterMap_none_of_forall {α β : Type} (f : α → Option β) (l : List α)
    (h : ∀ a, f a = none) : l.filterMap f = [] := by
  induction l with
  | nil => rfl
  | cons x xs ih => simp [List.filterMap_cons, h, ih]

theorem filterMap_map_none {α β γ : Type} (g : α → β) (f : β → Option γ) (l : List α)
    (h : ∀ a, f (g a) = none) : (l.map g).filterMap f = [] := by
  rw [List.filterMap_map]
  exact filterMap_none_of_forall _ _ (fun a => h a)

theorem createWrites_catRows (env : CreateEnv) (cid : String) (sid : Int)
    (uid t d v pt tg : String) (vars : List VariantInput) (product : ShopifyProduct)
    (uploaded : List UploadedImage) :
    (createWrites env cid sid uid t d v pt tg vars product uploaded).filterMap writeCatRow
      = [catalogueRowOf cid sid uid t d v pt tg vars] := by
  unfold createWrites
  rw [List.filterMap_append, List.filterMap_append, filterMap_map_none, filterMap_map_none]
  · rfl
  · intro a; rfl
  · intro a; rfl

theorem createWrites_mapRows (env : CreateEnv) (cid : String) (sid : Int)
    (uid t d v pt tg : String) (vars : List VariantInput) (product : ShopifyProduct)
    (uploaded : List UploadedImage) :
    (createWrites env cid sid uid t d v pt tg vars product uploaded).filterMap writeMapRow
      = [mappingRowOf cid product.id sid] := by
  unfold createWrites
  rw [List.filterMap_append, List.filterMap_append, filterMap_map_none, filterMap_map_none]
  · rfl
  · intro a; rfl
  · intro a; rfl

theorem localPersistStep_ok (env : CreateEnv) (db : Db) (ws : List DbWrite) (db2 : Db)
    (h : (localPersistStep env db ws).1 = .ok db2) : db2 = applyWrites db ws := by
  unfold localPersistStep at h
  split at h
  · simp at h
  · exact (Except.ok.inj h).symm

/-! ## C3 -/

/-- C3: the LOCAL_PERSISTING transaction is atomic over the four tables
it writes — after any create run the `catalogue`, `mapping`, `variants`
and `images` tables are either all unchanged (any failure, or a rollback
of the transaction) or the commit appended, in particular, the one
product row and the one mapping row bearing the same fresh catalogue id;
consequently the mapping-without-product invariant is preserved by every
create, successful or failed. -/
theorem C3_local_persist_atomic (env : CreateEnv) (db : Db) (t d v pt tg : String)
    (sid : Int) (vars : List VariantInput) (imgs : List ImageInput) (uid : String)
    (out : Except PyError CreateOk × Db × List Effect)
    (hout : out = create_catalogue_complete env db t d v pt tg sid vars imgs uid) :
    ((out.2.1.catalogue = db.catalogue ∧ out.2.1.mapping = db.mapping ∧
      out.2.1.variants = db.variants ∧ out.2.1.images = db.images) ∨
     (∃ c m, c.catalogue_id = m.catalogue_id ∧
        out.2.1.catalogue = db.catalogue ++ [c] ∧
        out.2.1.mapping = db.mapping ++ [m])) ∧
    (noOrphans db → noOrphans out.2.1) := by
  subst hout
  simp only [create_catalogue_complete]
  split
  · exact ⟨Or.inl ⟨rfl, rfl, rfl, rfl⟩, fun h => h⟩
  split
  · exact ⟨Or.inl ⟨rfl, rfl, rfl, rfl⟩, fun h => h⟩
  split
  · exact ⟨Or.inl ⟨rfl, rfl, rfl, rfl⟩, fun h => h⟩
  split
  · exact ⟨Or.inl ⟨rfl, rfl, rfl, rfl⟩, fun h => h⟩
  rename_i product heqp
  split
  · exact ⟨Or.inl ⟨rfl, rfl, rfl, rfl⟩, fun h => h⟩
  rename_i uploaded hequ
  split
  · exact ⟨Or.inl ⟨rfl, rfl, rfl, rfl⟩, fun h => h⟩
  split
  · exact ⟨Or.inl ⟨rfl, rfl, rfl, rfl⟩, fun h => h⟩
  rename_i db2 heq
  have hdb2 : db2 = applyWrites db (createWrites env env.freshCatalogueId sid uid t d v pt
      tg vars product uploaded) := localPersistStep_ok _ _ _ _ heq
  have hcat : (log_audit db2 env.auditError env.freshCatalogueId (some sid) (some uid)
      "CREATE" (createAuditChanges product.id product.variants.length
        uploaded.length)).catalogue
      = db.catalogue ++ [catalogueRowOf env.freshCatalogueId sid uid t d v pt tg vars] := by
    rw [log_audit_catalogue, hdb2, applyWrites_catalogue, createWrites_catRows]
  have hmap : (log_audit db2 env.auditError env.freshCatalogueId (some sid) (some uid)
      "CREATE" (createAuditChanges product.id product.variants.length
        uploaded.length)).mapping
      = db.mapping ++ [mappingRowOf env.freshCatalogueId product.id sid] := by
    rw [log_audit_mapping, hdb2, applyWrites_mapping, createWrites_mapRows]
  refine ⟨Or.inr ⟨_, _, rfl, hcat, hmap⟩, fun h mrow hmrow => ?_⟩
  rw [hmap] at hmrow
  rcases List.mem_append.mp hmrow with hold | hnew
  · obtain ⟨crow, hc, hceq⟩ := h mrow hold
    exact ⟨crow, by rw [hcat]; exact List.mem_append_left _ hc, hceq⟩
  · rw [List.mem_singleton.mp hnew]
    exact ⟨catalogueRowOf env.freshCatalogueId sid uid t d v pt tg vars,
      by rw [hcat]; exact List.mem_append_right _ (List.mem_singleton.mpr rfl), rfl⟩

/-- Witness for C3: a concrete successful create preserves the
mapping-without-product invariant. -/
theorem C3_witness :
    noOrphans dbOneStore ∧
    noOrphans (create_catalogue_complete envAllOk dbOneStore "t" "d" "v" "pt" "" 1 [] []
      "u").2.1 := by
  have h0 : noOrphans dbOneStore := by intro m hm; simp [dbOneStore] at hm
  refine ⟨h0, ?_⟩
  exact (C3_local_persist_atomic envAllOk dbOneStore "t" "d" "v" "pt" "" 1 [] [] "u"
    (create_catalogue_complete envAllOk dbOneStore "t" "d" "v" "pt" "" 1 [] [] "u") rfl).2 h0

/-! ## C6 -/

/-- Counterexample to C6 as stated: the request carries an image with a
missing URL, yet the create flow aborts with the authorization error and
its trace is exactly the ownership query — no image existence probe ever
ran, so the VALIDATING image checks do not execute before the AUTHORIZED
step. -/
theorem C6_counterexample :
    (create_catalogue_complete envAllOk dbEmpty "t" "d" "v" "pt" "" 1 []
        [⟨none, none, none⟩] "u").1
      = .error (.authorization "Unauthorized: You do not own this store") ∧
    (create_catalogue_complete envAllOk dbEmpty "t" "d" "v" "pt" "" 1 []
        [⟨none, none, none⟩] "u").2.2
      = [Effect.ownershipQuery 1 "u"] := by decide

/-- C6 (amended): the required-field checks do run first, in the endpoint
before any service step; but inside the service the ownership check and
the store-config fetch precede the image-URL probes, and an invalid
(missing or unreachable) image URL still aborts the whole operation with
a ValidationError before any remote call or local write — the trace of
such a run is exactly ownership query, store-config fetch, image probes,
and the database is untouched. -/
theorem C6_validation_order (env : CreateEnv) (db : Db) (t d v pt tg : String)
    (sid : Int) (vars : List VariantInput) (imgs : List ImageInput) (uid : String) :
    (verify_store_ownership db env.ownershipDbError sid uid = true →
     get_store_config db env.configError sid uid = .ok () →
     validate_image_urls env.probe imgs ≠ [] →
       (create_catalogue_complete env db t d v pt tg sid vars imgs uid).1
           = .error (.validation (validate_image_urls env.probe imgs)) ∧
       (create_catalogue_complete env db t d v pt tg sid vars imgs uid).2.1 = db ∧
       (create_catalogue_complete env db t d v pt tg sid vars imgs uid).2.2
           = Effect.ownershipQuery sid uid :: Effect.storeConfigFetch sid ::
               probeEffects imgs) ∧
    ((t = "" ∨ d = "") → ∀ key sidOpt,
       create_catalogue_endpoint env db key t d v pt tg sidOpt vars imgs uid
         = { status := 400, body := .plainError "title and description are required",
             db := db, effects := [] }) := by
  constructor
  · intro hown hcfg hval
    have hne : (validate_image_urls env.probe imgs).isEmpty = false := by
      cases hv : validate_image_urls env.probe imgs with
      | nil => exact absurd hv hval
      | cons a l => rfl
    simp [create_catalogue_complete, hown, hcfg, hne]
  · intro h key sidOpt
    have hcond : (t == "" || d == "") = true := by
      rcases h with h | h <;> simp [h]
    simp [create_catalogue_endpoint, hcond]

/-- Witness for C6 (amended) at a concrete run: owned store, unreachable
image URL — validation aborts after the ownership check, and an empty
title short-circuits the endpoint. -/
theorem C6_witness :
    ((create_catalogue_complete
        { envAllOk with probe := fun _ => .exn } dbOneStore "t" "d" "v" "pt" "" 1 []
        [⟨some "http:bad", none, none⟩] "u").1
      = .error (.validation (validate_image_urls (fun _ => .exn)
          [⟨some "http:bad", none, none⟩])) ∧
     (create_catalogue_complete
        { envAllOk with probe := fun _ => .exn } dbOneStore "t" "d" "v" "pt" "" 1 []
        [⟨some "http:bad", none, none⟩] "u").2.1 = dbOneStore ∧
     (create_catalogue_complete
        { envAllOk with probe := fun _ => .exn } dbOneStore "t" "d" "v" "pt" "" 1 []
        [⟨some "http:bad", none, none⟩] "u").2.2
      = Effect.ownershipQuery 1 "u" :: Effect.storeConfigFetch 1 ::
          probeEffects [⟨some "http:bad", none, none⟩]) ∧
    create_catalogue_endpoint envAllOk dbOneStore none "" "d" "v" "pt" "" (some 1) [] [] "u"
      = { status := 400, body := .plainError "title and description are required",
          db := dbOneStore, effects := [] } := by
  obtain ⟨h1, -⟩ := C6_validation_order { envAllOk with probe := fun _ => .exn } dbOneStore
    "t" "d" "v" "pt" "" 1 [] [⟨some "http:bad", none, none⟩] "u"
  obtain ⟨-, h2⟩ := C6_validation_order envAllOk dbOneStore "" "d" "v" "pt" "" 1 [] [] "u"
  exact ⟨h1 (by decide) (by decide) (by decide), h2 (Or.inl rfl) none (some 1)⟩

/-! ## Effect-classification lemmas -/

theorem sleepEffects_filter (p : Effect → Bool) (hp : ∀ s, p (Effect.sleep s) = false)
    (l : List ℕ) : (l.map Effect.sleep).filter p = [] := by
  induction l with
  | nil => rfl
  | cons x xs ih => simp [List.filter_cons, hp, ih]

theorem dbExecEffects_filter (p : Effect → Bool) (hp : ∀ w, p (Effect.dbExec w) = false)
    (l : List DbWrite) : (l.map Effect.dbExec).filter p = [] := by
  induction l with
  | nil => rfl
  | cons x xs ih => simp [List.filter_cons, hp, ih]

theorem probeEffects_filter (p : Effect → Bool) (hp : ∀ u, p (Effect.imageProbe u) = false)
    (imgs : List ImageInput) : (probeEffects imgs).filter p = [] := by
  induction imgs with
  | nil => rfl
  | cons img rest ih =>
      simp only [probeEffects, List.filterMap_cons] at ih ⊢
      split
      · exact ih
      · rename_i b heq
        split at heq
        · rename_i url hurl
          split at heq
          · simp at heq
          · obtain rfl : Effect.imageProbe url = b := Option.some.inj heq
            rw [List.filter_cons, if_neg (by simp [hp])]
            exact ih
        · simp at heq

theorem uploadImagesGo_filter (env : CreateEnv) (p : Effect → Bool)
    (hp1 : ∀ u, p (Effect.remoteCreateMedia u) = false)
    (hp2 : ∀ s, p (Effect.sleep s) = false) (imgs : List ImageInput) :
    ∀ acc, ((uploadImagesGo env imgs acc).2).filter p = [] := by
  induction imgs with
  | nil => intro acc; rfl
  | cons img rest ih =>
      intro acc
      simp only [uploadImagesGo]
      split <;> dsimp only
      · simp [List.filter_cons, hp1, sleepEffects_filter p hp2]
      · simp [List.filter_append, List.filter_cons, hp1, sleepEffects_filter p hp2, ih]

theorem localPersistStep_filter (p : Effect → Bool) (hp1 : ∀ w, p (Effect.dbExec w) = false)
    (hp2 : p Effect.dbCommit = false) (hp3 : p Effect.dbRollback = false)
    (env : CreateEnv) (db : Db) (ws : List DbWrite) :
    ((localPersistStep env db ws).2).filter p = [] := by
  unfold localPersistStep
  split <;> dsimp only
  · rw [List.filter_append, dbExecEffects_filter p hp1]
    simp [List.filter_cons, hp3]
  · rw [List.filter_append, dbExecEffects_filter p hp1]
    simp [List.filter_cons, hp2]

/-! ## C5 -/

/-- Counterexample to C5 as stated: one image whose upload fails on all
three attempts makes the whole create operation raise the terminal retry
error — it does not succeed with fewer images. -/
theorem C5_counterexample :
    (create_catalogue_complete envUploadsFail dbOneStore "t" "d" "v" "pt" "" 1 []
        [⟨some "http:a", none, none⟩] "u").1
      = .error (.generic "Shopify call failed after retries: connection reset") ∧
    (create_catalogue_complete envUploadsFail dbOneStore "t" "d" "v" "pt" "" 1 []
        [⟨some "http:a", none, none⟩] "u").2.1 = dbOneStore := by decide

/-- C5 (amended): when an image upload fails after its retries are
exhausted (or fatally), the raised error propagates out of the creation
flow unchanged: the create aborts with that error, no local row is
written (the database is untouched and the trace holds no transaction
activity), and the already-created remote product is not rolled back (no
remote delete call appears in the trace). -/
theorem C5_upload_failure_aborts (env : CreateEnv) (db : Db) (t d v pt tg : String)
    (sid : Int) (vars : List VariantInput) (imgs : List ImageInput) (uid : String)
    (e : PyError) (product : ShopifyProduct)
    (hown : verify_store_ownership db env.ownershipDbError sid uid = true)
    (hcfg : get_store_config db env.configError sid uid = .ok ())
    (hval : validate_image_urls env.probe imgs = [])
    (hcreate : (retry_shopify_call env.createOutcomes).result = .ok product)
    (hup : (uploadImagesGo env imgs []).1 = .error e) :
    (create_catalogue_complete env db t d v pt tg sid vars imgs uid).1 = .error e ∧
    (create_catalogue_complete env db t d v pt tg sid vars imgs uid).2.1 = db ∧
    ((create_catalogue_complete env db t d v pt tg sid vars imgs uid).2.2.filter isDbEff)
      = [] ∧
    ((create_catalogue_complete env db t d v pt tg sid vars imgs uid).2.2.filter
        isRemoteDeleteEff) = [] := by
  have hprobe1 := probeEffects_filter isDbEff (fun u => rfl) imgs
  have hprobe2 := probeEffects_filter isRemoteDeleteEff (fun u => rfl) imgs
  have hup1 := uploadImagesGo_filter env isDbEff (fun u => rfl) (fun s => rfl) imgs []
  have hup2 := uploadImagesGo_filter env isRemoteDeleteEff (fun u => rfl) (fun s => rfl)
    imgs []
  have hs1 := sleepEffects_filter isDbEff (fun s => rfl)
  have hs2 := sleepEffects_filter isRemoteDeleteEff (fun s => rfl)
  simp [create_catalogue_complete, hown, hcfg, hval, hcreate, hup, List.filter_append,
    List.filter_cons, isDbEff, isRemoteDeleteEff, hprobe1, hprobe2, hup1, hup2, hs1, hs2]

/-- Witness for C5 (amended) at the concrete failing-upload run. -/
theorem C5_witness :
    (create_catalogue_complete envUploadsFail dbOneStore "t" "d" "v" "pt" "" 1 []
        [⟨some "http:a", none, none⟩] "u").1
      = .error (.generic "Shopify call failed after retries: connection reset") ∧
    (create_catalogue_complete envUploadsFail dbOneStore "t" "d" "v" "pt" "" 1 []
        [⟨some "http:a", none, none⟩] "u").2.1 = dbOneStore ∧
    ((create_catalogue_complete envUploadsFail dbOneStore "t" "d" "v" "pt" "" 1 []
        [⟨some "http:a", none, none⟩] "u").2.2.filter isDbEff) = [] ∧
    ((create_catalogue_complete envUploadsFail dbOneStore "t" "d" "v" "pt" "" 1 []
        [⟨some "http:a", none, none⟩] "u").2.2.filter isRemoteDeleteEff) = [] := by
  exact C5_upload_failure_aborts envUploadsFail dbOneStore "t" "d" "v" "pt" "" 1 []
    [⟨some "http:a", none, none⟩] "u"
    (.generic "Shopify call failed after retries: connection reset") prod1
    (by decide) (by decide) (by decide) (by decide) (by decide)

/-! ## Sorting and ordering lemmas (C7) -/

theorem orderedInsert_filter_pos_eq (x : UploadedImage) (q : Int) (hx : x.position = q)
    (l : List UploadedImage) :
    (List.orderedInsert posLE x l).filter (fun u => u.position == q)
      = x :: l.filter (fun u => u.position == q) := by
  induction l with
  | nil => simp [List.orderedInsert, List.filter_cons, hx]
  | cons y ys ih =>
      rw [List.orderedInsert]
      by_cases h : posLE x y
      · rw [if_pos h, List.filter_cons, List.filter_cons]
        simp [hx]
      · rw [if_neg h]
        have hylt : y.position < x.position := not_le.mp h
        have hy : (y.position == q) = false :=
          beq_eq_false_iff_ne.mpr (ne_of_lt (hx ▸ hylt))
        rw [List.filter_cons, List.filter_cons, hy]
        simp only [Bool.false_eq_true, if_false]
        exact ih

theorem orderedInsert_filter_pos_ne (x : UploadedImage) (q : Int) (hx : x.position ≠ q)
    (l : List UploadedImage) :
    (List.orderedInsert posLE x l).filter (fun u => u.position == q)
      = l.filter (fun u => u.position == q) := by
  induction l with
  | nil => simp [List.orderedInsert, List.filter_cons, hx]
  | cons y ys ih =>
      rw [List.orderedInsert]
      by_cases h : posLE x y
      · rw [if_pos h, List.filter_cons, List.filter_cons]
        simp [hx]
      · rw [if_neg h, List.filter_cons, List.filter_cons, ih]

/-- Stability of the position sort: for every key value, the sorted
list restricted to that key is the input restricted to that key — equal
positions keep their original relative order. -/
theorem insertionSort_filter_pos (l : List UploadedImage) (q : Int) :
    (List.insertionSort posLE l).filter (fun u => u.position == q)
      = l.filter (fun u => u.position == q) := by
  induction l with
  | nil => rfl
  | cons x xs ih =>
      rw [List.insertionSort]
      by_cases hx : x.position = q
      · rw [orderedInsert_filter_pos_eq x q hx, ih, List.filter_cons]
        simp [hx]
      · rw [orderedInsert_filter_pos_ne x q hx, ih, List.filter_cons]
        simp [hx]

theorem uploadImagesGo_positions (env : CreateEnv) (imgs : List ImageInput) :
    ∀ acc L, (uploadImagesGo env imgs acc).1 = .ok L →
      L.map (fun u => u.position)
        = acc.map (fun u => u.position) ++ defaultPositions acc.length imgs := by
  induction imgs with
  | nil =>
      intro acc L h
      simp only [uploadImagesGo] at h
      obtain rfl : acc = L := Except.ok.inj h
      simp [defaultPositions]
  | cons img rest ih =>
      intro acc L h
      simp only [uploadImagesGo] at h
      split at h <;> dsimp only at h
      · exact absurd h (by simp)
      · have h2 := ih _ _ h
        rw [h2]
        simp [defaultPositions, List.map_append]

theorem mediaOrderingStep_filter_reorder (env : CreateEnv) (pid : String)
    (L : List UploadedImage) :
    ((mediaOrderingStep env pid L).2).filter isReorderEff
      = if L.isEmpty then [] else [Effect.remoteReorderMedia pid (sortedMediaIds L)] := by
  by_cases hL : L.isEmpty
  · simp [mediaOrderingStep, hL]
  · simp [mediaOrderingStep, hL, List.filter_cons, isReorderEff,
      sleepEffects_filter isReorderEff (fun s => rfl)]

/-! ## C7 -/

/-- C7: under the creation flow, if the uploads produced at least one
image then exactly one media-reorder call appears in the trace and its
argument is the media ids sorted ascending by position (the stable sort:
sorted, a permutation of the uploads, and ties keep the original order),
while zero uploaded images produce no reorder call; and the position of
each uploaded image is the user-supplied one, defaulting to its insertion
index when absent. -/
theorem C7_media_ordering (env : CreateEnv) (db : Db) (t d v pt tg : String) (sid : Int)
    (vars : List VariantInput) (imgs : List ImageInput) (uid : String)
    (product : ShopifyProduct) (L : List UploadedImage) :
    (verify_store_ownership db env.ownershipDbError sid uid = true →
     get_store_config db env.configError sid uid = .ok () →
     validate_image_urls env.probe imgs = [] →
     (retry_shopify_call env.createOutcomes).result = .ok product →
     (uploadImagesGo env imgs []).1 = .ok L →
       ((create_catalogue_complete env db t d v pt tg sid vars imgs uid).2.2.filter
           isReorderEff
         = if L.isEmpty then []
           else [Effect.remoteReorderMedia product.id (sortedMediaIds L)]) ∧
       L.map (fun u => u.position) = defaultPositions 0 imgs) ∧
    List.Sorted posLE (List.insertionSort posLE L) ∧
    (List.insertionSort posLE L).Perm L ∧
    (∀ q : Int, (List.insertionSort posLE L).filter (fun u => u.position == q)
        = L.filter (fun u => u.position == q)) := by
  refine ⟨fun hown hcfg hval hcreate hup => ⟨?_, ?_⟩,
    List.sorted_insertionSort posLE L, List.perm_insertionSort posLE L,
    fun q => insertionSort_filter_pos L q⟩
  · have hprobe := probeEffects_filter isReorderEff (fun u => rfl) imgs
    have hupf := uploadImagesGo_filter env isReorderEff (fun u => rfl) (fun s => rfl)
      imgs []
    have hs := sleepEffects_filter isReorderEff (fun s => rfl)
    have hlp := localPersistStep_filter isReorderEff (fun w => rfl) rfl rfl env db
    simp only [create_catalogue_complete, hown, hcfg, hval, hcreate, hup,
      Bool.not_true, Bool.false_eq_true, if_false, List.isEmpty_nil, List.not_mem_nil]
    split
    · simp [List.filter_append, List.filter_cons, isReorderEff, hprobe, hupf, hs,
        mediaOrderingStep_filter_reorder]
    · split <;>
        simp [List.filter_append, List.filter_cons, isReorderEff, hprobe, hupf, hs, hlp,
          mediaOrderingStep_filter_reorder]
  · simpa using uploadImagesGo_positions env imgs [] L hup

/-- Witness for C7: the spec's media-ordering round-trip test — images
with positions `[2, 0, 1]` produce one reorder call whose media-id list
is the stable ascending sort `["M1", "M2", "M0"]`. -/
theorem C7_witness :
    (((create_catalogue_complete envAllOk dbOneStore "t" "d" "v" "pt" "" 1 [] imgs3
          "u").2.2.filter isReorderEff
       = if up3.isEmpty then []
         else [Effect.remoteReorderMedia prod1.id (sortedMediaIds up3)]) ∧
     up3.map (fun u => u.position) = defaultPositions 0 imgs3) ∧
    List.Sorted posLE (List.insertionSort posLE up3) ∧
    (List.insertionSort posLE up3).Perm up3 ∧
    sortedMediaIds up3 = ["M1", "M2", "M0"] := by
  obtain ⟨h1, h2, h3, -⟩ := C7_media_ordering envAllOk dbOneStore "t" "d" "v" "pt" "" 1 []
    imgs3 "u" prod1 up3
  exact ⟨h1 (by decide) (by decide) (by decide) (by decide) (by decide), h2, h3, by decide⟩

end Hooter
